import Mathlib

/-!
# Verification of the Bulk Ingestion & Export Tracking Engine

A shallow embedding, in Lean 4, of the core of the `ai-bridge-be` repository:

* the annotation-session ledger (`AnnotationSessionsService`:
  `create`, `update`, `addAnnotatedSentence`, `removeAnnotatedSentence`,
  `exportSession`),
* the duplicate detector (`DuplicateDetectionService.bulkCheckDuplicates`,
  `processSentencesWithDuplicateCheck`),
* the bulk persister (`SentencesService.bulkCreate` over Mongo `insertMany`),
* the tabular parser (`CsvParserService.parseFile` / `mapRowToDto`),
* the upload pipeline of `SentencesController.uploadCsv` together with the
  document-tracking ledger (`DocumentTrackingService`).

Mongo ObjectIds are abstracted as `Nat` for session members (the source only
ever compares their `toString()` forms for equality) and as `String` for
corpus records; database and storage effects are passed in explicitly as
values describing the outcome of each I/O call.
-/

namespace AiBridge

/-! ## Annotation session ledger (`annotation-sessions.service.ts`) -/

/-- `SessionStatus` of `annotation-session.schema.ts`. -/
inductive SessionStatus
  | active
  | paused
  | completed
  | exported
deriving DecidableEq, Repr

/-- One entry of the session's append-only `exports` log (the fields a claim
can observe; timestamps and URLs are environment data). -/
structure SessionExport where
  sentence_count : Nat
  file_name : String
deriving DecidableEq, Repr

/-- The persisted `AnnotationSession` document: the fields touched by the
service operations.  Sentence ObjectIds are abstracted as `Nat`. -/
structure AnnotationSession where
  name : String
  description : String
  status : SessionStatus
  annotated_sentence_ids : List Nat
  exported_sentence_ids : List Nat
  total_annotated : Nat
  total_exported : Nat
  completed_at_set : Bool
  language_filter : String
  exports : List SessionExport
deriving DecidableEq, Repr

/-- `UpdateAnnotationSessionDto` (name / description / status /
language_filter, all optional): the whitelist enforced by the global
`ValidationPipe`, so `update` can never touch the id arrays. -/
structure UpdateAnnotationSessionDto where
  name : Option String := none
  description : Option String := none
  status : Option SessionStatus := none
  language_filter : Option String := none
deriving DecidableEq, Repr

/-- `AnnotationSessionsService.create`: a fresh session starts with empty
`annotated_sentence_ids` / `exported_sentence_ids` and zero counters. -/
def createSession (name description language_filter : String) : AnnotationSession :=
  { name := name
    description := description
    status := SessionStatus.active
    annotated_sentence_ids := []
    exported_sentence_ids := []
    total_annotated := 0
    total_exported := 0
    completed_at_set := false
    language_filter := language_filter
    exports := [] }

/-- `AnnotationSessionsService.update`: stamps `completed_at` the first time
status becomes `completed`, then `Object.assign`s the present dto fields. -/
def updateSession (s : AnnotationSession) (dto : UpdateAnnotationSessionDto) :
    AnnotationSession :=
  let s :=
    if dto.status = some SessionStatus.completed ∧ s.completed_at_set = false then
      { s with completed_at_set := true }
    else s
  { s with
    name := dto.name.getD s.name
    description := dto.description.getD s.description
    status := dto.status.getD s.status
    language_filter := dto.language_filter.getD s.language_filter }

/-- `AnnotationSessionsService.addAnnotatedSentence`: idempotent append to
`annotated_sentence_ids`, recomputing `total_annotated`. -/
def addAnnotatedSentence (s : AnnotationSession) (sentenceId : Nat) :
    AnnotationSession :=
  if s.annotated_sentence_ids.contains sentenceId then s
  else
    { s with
      annotated_sentence_ids := s.annotated_sentence_ids ++ [sentenceId]
      total_annotated := (s.annotated_sentence_ids ++ [sentenceId]).length }

/-- `AnnotationSessionsService.removeAnnotatedSentence`: throws
`BadRequestException` when the id is already exported, otherwise filters it
out of `annotated_sentence_ids`. -/
def removeAnnotatedSentence (s : AnnotationSession) (sentenceId : Nat) :
    Except String AnnotationSession :=
  if s.exported_sentence_ids.contains sentenceId then
    Except.error "Cannot remove an already exported sentence from session"
  else
    Except.ok
      { s with
        annotated_sentence_ids :=
          s.annotated_sentence_ids.filter (fun id => id != sentenceId)
        total_annotated :=
          (s.annotated_sentence_ids.filter (fun id => id != sentenceId)).length }

/-- The export-candidate resolution of `AnnotationSessionsService.exportSession`
(lines 189-226): an explicit non-empty id list is validated for session
membership and then stripped of already-exported ids; otherwise all annotated
ids minus the already-exported ones are selected. -/
def exportResolve (s : AnnotationSession) (sentence_ids : Option (List Nat)) :
    Except String (List Nat) :=
  match sentence_ids with
  | some ids =>
    if ids.length > 0 then
      if (ids.filter
          (fun id => !(s.annotated_sentence_ids.contains id))).length > 0 then
        Except.error "Some requested sentences are not in this session"
      else
        Except.ok (ids.filter (fun id => !(s.exported_sentence_ids.contains id)))
    else
      Except.ok
        (s.annotated_sentence_ids.filter
          (fun id => !(s.exported_sentence_ids.contains id)))
  | none =>
    Except.ok
      (s.annotated_sentence_ids.filter
        (fun id => !(s.exported_sentence_ids.contains id)))

/-- `AnnotationSessionsService.exportSession` after a successful storage write:
fails on an empty resolved set, otherwise appends the resolved ids to
`exported_sentence_ids`, recomputes `total_exported` and logs the export. -/
def exportSession (s : AnnotationSession) (sentence_ids : Option (List Nat))
    (file_name : String) : Except String AnnotationSession :=
  match exportResolve s sentence_ids with
  | Except.error e => Except.error e
  | Except.ok sentenceIdsToExport =>
    if sentenceIdsToExport.length = 0 then
      Except.error "No new sentences to export"
    else
      Except.ok
        { s with
          exported_sentence_ids :=
            s.exported_sentence_ids ++ sentenceIdsToExport
          total_exported :=
            (s.exported_sentence_ids ++ sentenceIdsToExport).length
          exports := s.exports ++
            [{ sentence_count := sentenceIdsToExport.length
               file_name := file_name }] }

/-- One invocation of a session operation.  `exportOp` carries whether the S3
write succeeded: the session document is only saved after the storage
collaborator returns, so a storage failure leaves the session unchanged. -/
inductive SessionOp
  | updateOp (dto : UpdateAnnotationSessionDto)
  | addOp (sentenceId : Nat)
  | removeOp (sentenceId : Nat)
  | exportOp (sentence_ids : Option (List Nat)) (file_name : String)
      (storageOk : Bool)
deriving Repr

/-- Applying one operation to a session; an operation that throws (or whose
storage write fails) leaves the persisted session unchanged. -/
def applySessionOp (s : AnnotationSession) : SessionOp → AnnotationSession
  | SessionOp.updateOp dto => updateSession s dto
  | SessionOp.addOp sid => addAnnotatedSentence s sid
  | SessionOp.removeOp sid =>
    match removeAnnotatedSentence s sid with
    | Except.ok s' => s'
    | Except.error _ => s
  | SessionOp.exportOp ids fn storageOk =>
    match exportSession s ids fn with
    | Except.ok s' => if storageOk then s' else s
    | Except.error _ => s

/-- Running a sequence of session operations. -/
def runSessionOps (s : AnnotationSession) (ops : List SessionOp) :
    AnnotationSession :=
  ops.foldl applySessionOp s

/-- The P3 invariant: every exported id is an annotated id. -/
def ExportedSubset (s : AnnotationSession) : Prop :=
  ∀ x ∈ s.exported_sentence_ids, x ∈ s.annotated_sentence_ids

theorem updateSession_annotated (s : AnnotationSession)
    (dto : UpdateAnnotationSessionDto) :
    (updateSession s dto).annotated_sentence_ids = s.annotated_sentence_ids := by
  unfold updateSession
  split <;> rfl

theorem updateSession_exported (s : AnnotationSession)
    (dto : UpdateAnnotationSessionDto) :
    (updateSession s dto).exported_sentence_ids = s.exported_sentence_ids := by
  unfold updateSession
  split <;> rfl

theorem addAnnotatedSentence_exported (s : AnnotationSession) (sid : Nat) :
    (addAnnotatedSentence s sid).exported_sentence_ids =
      s.exported_sentence_ids := by
  unfold addAnnotatedSentence
  split <;> rfl

theorem addAnnotatedSentence_annotated_mono (s : AnnotationSession)
    (sid x : Nat) (hx : x ∈ s.annotated_sentence_ids) :
    x ∈ (addAnnotatedSentence s sid).annotated_sentence_ids := by
  unfold addAnnotatedSentence
  split
  · exact hx
  · exact List.mem_append_left _ hx

theorem exportResolve_mem_annotated {s : AnnotationSession}
    {ids? : Option (List Nat)} {l : List Nat}
    (h : exportResolve s ids? = Except.ok l) :
    ∀ x ∈ l, x ∈ s.annotated_sentence_ids := by
  intro x hx
  unfold exportResolve at h
  split at h
  · split at h
    · split at h
      · exact Except.noConfusion h
      · rename_i ids _ hinv
        injection h with h
        subst h
        simp at hx
        by_contra hxa
        have hmem :
            x ∈ ids.filter
              (fun id => !(s.annotated_sentence_ids.contains id)) := by
          simp
          exact ⟨hx.1, hxa⟩
        have hnil :
            ids.filter (fun id => !(s.annotated_sentence_ids.contains id))
              = [] :=
          List.length_eq_zero.mp (Nat.eq_zero_of_not_pos hinv)
        rw [hnil] at hmem
        exact absurd hmem (List.not_mem_nil x)
    · injection h with h
      subst h
      simp at hx
      exact hx.1
  · injection h with h
    subst h
    simp at hx
    exact hx.1

theorem exportSession_ok_fields {s s' : AnnotationSession}
    {ids? : Option (List Nat)} {fn : String}
    (h : exportSession s ids? fn = Except.ok s') :
    ∃ l, exportResolve s ids? = Except.ok l ∧
      s'.annotated_sentence_ids = s.annotated_sentence_ids ∧
      s'.exported_sentence_ids = s.exported_sentence_ids ++ l := by
  unfold exportSession at h
  split at h
  · exact Except.noConfusion h
  · rename_i l hres
    split at h
    · exact Except.noConfusion h
    · injection h with h
      subst h
      exact ⟨l, hres, rfl, rfl⟩

theorem exportResolve_some_valid (s : AnnotationSession) (ids : List Nat)
    (hlen : ids.length > 0)
    (hinv :
      ids.filter (fun id => !(s.annotated_sentence_ids.contains id)) = []) :
    exportResolve s (some ids) =
      Except.ok
        (ids.filter (fun id => !(s.exported_sentence_ids.contains id))) := by
  unfold exportResolve
  simp [hlen, hinv]
  intro a ha
  have hmem := List.filter_eq_nil_iff.mp hinv a ha
  simpa using hmem

theorem applySessionOp_subset {s : AnnotationSession} (op : SessionOp)
    (h : ExportedSubset s) : ExportedSubset (applySessionOp s op) := by
  intro x hx
  cases op with
  | updateOp dto =>
    rw [applySessionOp, updateSession_exported] at hx
    rw [applySessionOp, updateSession_annotated]
    exact h x hx
  | addOp sid =>
    rw [applySessionOp, addAnnotatedSentence_exported] at hx
    rw [applySessionOp]
    exact addAnnotatedSentence_annotated_mono s sid x (h x hx)
  | removeOp sid =>
    rw [applySessionOp] at hx ⊢
    unfold removeAnnotatedSentence at hx ⊢
    by_cases hc : s.exported_sentence_ids.contains sid = true
    · rw [if_pos hc] at hx ⊢
      exact h x hx
    · rw [if_neg hc] at hx ⊢
      simp only at hx ⊢
      simp
      refine ⟨h x hx, ?_⟩
      intro hxs
      subst hxs
      exact hc (List.elem_iff.mpr hx)
  | exportOp ids fn storageOk =>
    rw [applySessionOp] at hx ⊢
    cases hexp : exportSession s ids fn with
    | error e =>
      rw [hexp] at hx
      exact h x hx
    | ok s' =>
      rw [hexp] at hx
      cases storageOk with
      | false =>
        exact h x hx
      | true =>
        have hx' : x ∈ s'.exported_sentence_ids := hx
        show x ∈ s'.annotated_sentence_ids
        obtain ⟨l, hres, hann, hexpids⟩ := exportSession_ok_fields hexp
        rw [hexpids] at hx'
        rw [hann]
        rcases List.mem_append.mp hx' with hx' | hx'
        · exact h x hx'
        · exact exportResolve_mem_annotated hres x hx'

theorem applySessionOp_exported_mono (s : AnnotationSession) (op : SessionOp)
    (x : Nat) (hx : x ∈ s.exported_sentence_ids) :
    x ∈ (applySessionOp s op).exported_sentence_ids := by
  cases op with
  | updateOp dto => rw [applySessionOp, updateSession_exported]; exact hx
  | addOp sid => rw [applySessionOp, addAnnotatedSentence_exported]; exact hx
  | removeOp sid =>
    rw [applySessionOp]
    unfold removeAnnotatedSentence
    by_cases hc : s.exported_sentence_ids.contains sid = true
    · rw [if_pos hc]
      exact hx
    · rw [if_neg hc]
      exact hx
  | exportOp ids fn storageOk =>
    rw [applySessionOp]
    cases hexp : exportSession s ids fn with
    | error e => exact hx
    | ok s' =>
      cases storageOk with
      | false => exact hx
      | true =>
        show x ∈ s'.exported_sentence_ids
        obtain ⟨l, _, _, hexpids⟩ := exportSession_ok_fields hexp
        rw [hexpids]
        exact List.mem_append_left _ hx

theorem runSessionOps_subset (ops : List SessionOp) (s : AnnotationSession)
    (h : ExportedSubset s) : ExportedSubset (runSessionOps s ops) := by
  induction ops generalizing s with
  | nil => exact h
  | cons op rest ih =>
    exact ih (applySessionOp s op) (applySessionOp_subset op h)

theorem runSessionOps_exported_mono (ops : List SessionOp)
    (s : AnnotationSession) (x : Nat) (hx : x ∈ s.exported_sentence_ids) :
    x ∈ (runSessionOps s ops).exported_sentence_ids := by
  induction ops generalizing s with
  | nil => exact hx
  | cons op rest ih =>
    exact ih (applySessionOp s op) (applySessionOp_exported_mono s op x hx)

/-- **C1.** For every annotation session reachable from `create` by any
sequence of the session operations (update, addAnnotatedSentence,
removeAnnotatedSentence, exportSession), `exported_sentence_ids` is a subset
of `annotated_sentence_ids`, and an id present in `exported_sentence_ids`
is never removed by any subsequent sequence of operations. -/
theorem exported_subset_invariant (name description lf : String)
    (ops more : List SessionOp) (x : Nat) :
    ExportedSubset (runSessionOps (createSession name description lf) ops) ∧
    (x ∈ (runSessionOps (createSession name description lf)
        ops).exported_sentence_ids →
      x ∈ (runSessionOps (createSession name description lf)
        (ops ++ more)).exported_sentence_ids) := by
  constructor
  · refine runSessionOps_subset ops _ ?_
    intro y hy
    simp [createSession] at hy
  · intro hx
    unfold runSessionOps
    rw [List.foldl_append]
    exact runSessionOps_exported_mono more _ x hx

/-- Witness for C1 at a concrete operation sequence: annotate sentence 1,
export it, then attempt to remove it. -/
theorem exported_subset_invariant_witness :
    ExportedSubset (runSessionOps (createSession "s" "" "")
      [SessionOp.addOp 1, SessionOp.exportOp none "f" true]) ∧
    1 ∈ (runSessionOps (createSession "s" "" "")
      ([SessionOp.addOp 1, SessionOp.exportOp none "f" true] ++
        [SessionOp.removeOp 1])).exported_sentence_ids := by
  refine ⟨(exported_subset_invariant "s" "" ""
      [SessionOp.addOp 1, SessionOp.exportOp none "f" true]
      [SessionOp.removeOp 1] 1).1, ?_⟩
  exact (exported_subset_invariant "s" "" ""
      [SessionOp.addOp 1, SessionOp.exportOp none "f" true]
      [SessionOp.removeOp 1] 1).2 (by decide)

/-- **C4.** An id already in `exported_sentence_ids` is never selected by an
implicit `exportSession` call; an explicit id list containing it (all supplied
ids being session members) has it filtered out of the resolved set; and a call
whose resolved set is empty fails with no export performed. -/
theorem exported_once (s : AnnotationSession) (sid : Nat)
    (hexp : sid ∈ s.exported_sentence_ids) :
    (∀ l, exportResolve s none = Except.ok l → sid ∉ l) ∧
    (∀ ids l, sid ∈ ids →
      (∀ y ∈ ids, y ∈ s.annotated_sentence_ids) →
      exportResolve s (some ids) = Except.ok l → sid ∉ l) ∧
    (∀ ids? fn, exportResolve s ids? = Except.ok [] →
      exportSession s ids? fn = Except.error "No new sentences to export") := by
  refine ⟨?_, ?_, ?_⟩
  · intro l h
    unfold exportResolve at h
    simp only [Except.ok.injEq] at h
    subst h
    simp
    intro _
    exact hexp
  · intro ids l hsid hann h
    have hlen : ids.length > 0 :=
      List.length_pos.mpr (List.ne_nil_of_mem hsid)
    have hinv :
        ids.filter (fun id => !(s.annotated_sentence_ids.contains id)) = [] := by
      rw [List.filter_eq_nil_iff]
      intro a ha
      simp
      exact hann a ha
    rw [exportResolve_some_valid s ids hlen hinv] at h
    simp only [Except.ok.injEq] at h
    subst h
    simp
    intro _
    exact hexp
  · intro ids? fn h
    unfold exportSession
    rw [h]
    rfl

/-- A concrete session used to witness C4: sentences 1 and 2 annotated,
sentence 1 already exported. -/
def c4Session : AnnotationSession :=
  { name := "s"
    description := ""
    status := SessionStatus.active
    annotated_sentence_ids := [1, 2]
    exported_sentence_ids := [1]
    total_annotated := 2
    total_exported := 1
    completed_at_set := false
    language_filter := ""
    exports := [{ sentence_count := 1, file_name := "f" }] }

/-- Witness for C4: on `c4Session`, the implicit resolution yields `[2]`
(without the exported id 1), an explicit list `[1, 2]` also resolves to `[2]`,
and the explicit call `[1]` resolves to the empty set and fails. -/
theorem exported_once_witness :
    (1 ∉ ([2] : List Nat)) ∧
    exportSession c4Session (some [1]) "g" =
      Except.error "No new sentences to export" := by
  constructor
  · exact (exported_once c4Session 1 (by decide)).1 [2] (by rfl)
  · exact (exported_once c4Session 1 (by decide)).2.2 (some [1]) "g" (by rfl)

/-! ## Candidate records and duplicate detection
(`lib/duplicate-detection.service.ts`) -/

/-- JS `String.prototype.trim`: strip whitespace from both ends, modelled
over the character sequence (Lean's builtin `String.trim` is not
kernel-reducible, so witnesses could not evaluate it). -/
def jsTrim (s : String) : String :=
  String.mk (((s.data.dropWhile Char.isWhitespace).reverse.dropWhile
    Char.isWhitespace).reverse)

/-- JS `String.prototype.toLowerCase`, modelled over the character
sequence. -/
def jsToLower (s : String) : String :=
  String.mk (s.data.map Char.toLower)

/-- `CreateSentenceDto` in the data-collection schema variant: the canonical
candidate record produced by the parser.  A missing `text` is modelled as the
empty string (both are falsy to `Boolean(sentence.text)`). -/
structure CreateSentenceDto where
  text : String
  language : String
  script : String
  country : String
  region_dialect : Option String
  source_type : String
  source_ref : Option String
  collection_date : Option String
  domain : String
  topic : Option String
  theme : String
  sensitive_characteristic : Option String
  safety_flag : String
  pii_removed : Bool
  notes : Option String
deriving DecidableEq, Repr

/-- A persisted corpus record as seen by the duplicate detector: its Mongo
`_id`, its upload-batch stamp `document_id` (nullable), and its `text`. -/
structure SentenceRec where
  id : String
  document_id : Option String
  text : String
deriving DecidableEq, Repr

/-- A JS `Map<string, string>` in insertion order; `set` appends and `get`
returns the value of the most recent `set` for the key. -/
abbrev DupMap := List (String × String)

/-- `Map.get`: the value of the last insertion for this key. -/
def dupGet (m : DupMap) (k : String) : Option String :=
  (m.reverse.find? (fun p => p.1 == k)).map (fun p => p.2)

/-- The `searchCriteria` of `bulkCheckDuplicates`: trimmed texts of the
candidates that have content. -/
def searchCriteria (sentences : List CreateSentenceDto) : List String :=
  (sentences.filter (fun s => s.text != "")).map (fun s => jsTrim s.text)

/-- `DuplicateDetectionService.bulkCheckDuplicates`: one bulk existence query
(`$or` of exact `text` matches) producing a `text ↦ _id.toString()` lookup
map.  `dbOk = false` is the query throwing; the catch returns an empty map. -/
def bulkCheckDuplicates (sentences : List CreateSentenceDto)
    (corpus : List SentenceRec) (dbOk : Bool) : DupMap :=
  if (searchCriteria sentences).length = 0 then []
  else if !dbOk then []
  else
    (corpus.filter (fun d => (searchCriteria sentences).contains d.text)).map
      (fun d => (d.text, d.id))

/-- One element of the `validatedSentences` intermediate array of
`processSentencesWithDuplicateCheck` (step 1). -/
structure ValidatedSentence where
  sentence : CreateSentenceDto
  rowNumber : Nat
  isValid : Bool
deriving DecidableEq, Repr

/-- A duplicate-detail entry of `ProcessingResult`. -/
structure DuplicateEntry where
  text : String
  existing_document_id : String
  row_number : Nat
deriving DecidableEq, Repr

/-- A row-level error entry of `ProcessingResult`. -/
structure RowError where
  row_number : Nat
  error : String
deriving DecidableEq, Repr

/-- An element of `validSentences`: the candidate spread together with the
current upload's `document_id`. -/
structure ValidSentence extends CreateSentenceDto where
  document_id : String
deriving DecidableEq, Repr

/-- `ProcessingResult` of the duplicate detector. -/
structure ProcessingResult where
  validSentences : List ValidSentence
  duplicates : List DuplicateEntry
  errors : List RowError
deriving DecidableEq, Repr

/-- Step 1 of `processSentencesWithDuplicateCheck`: each candidate tagged
with its 1-based row number and `Boolean(sentence.text)`. -/
def validateSentences (sentences : List CreateSentenceDto) :
    List ValidatedSentence :=
  sentences.enum.map (fun p =>
    { sentence := p.2, rowNumber := p.1 + 1, isValid := p.2.text != "" })

/-- The `errors` array after step 1: one entry per invalid candidate. -/
def validationErrors (sentences : List CreateSentenceDto) : List RowError :=
  ((validateSentences sentences).filter (fun v => !v.isValid)).map
    (fun v =>
      { row_number := v.rowNumber, error := "Missing required field: text" })

/-- The `sentencesToCheck` array: the candidates that passed validation. -/
def sentencesToCheck (sentences : List CreateSentenceDto) :
    List CreateSentenceDto :=
  ((validateSentences sentences).filter (fun v => v.isValid)).map
    (fun v => v.sentence)

/-- `DuplicateDetectionService.processSentencesWithDuplicateCheck`: validate,
bulk-check, and partition.  The single `forEach` over `validatedSentences`
that pushes into the three output arrays is rendered as one traversal per
output array; order and contents coincide. -/
def processSentencesWithDuplicateCheck (sentences : List CreateSentenceDto)
    (documentId : String) (corpus : List SentenceRec) (dbOk : Bool) :
    ProcessingResult :=
  if (sentencesToCheck sentences).length = 0 then
    { validSentences := []
      duplicates := []
      errors := validationErrors sentences }
  else
    { validSentences :=
        ((validateSentences sentences).filter (fun v => v.isValid)).filterMap
          (fun v =>
            match dupGet (bulkCheckDuplicates (sentencesToCheck sentences)
                corpus dbOk) (jsTrim v.sentence.text) with
            | some _ => none
            | none =>
              some { toCreateSentenceDto := v.sentence
                     document_id := documentId })
      duplicates :=
        ((validateSentences sentences).filter (fun v => v.isValid)).filterMap
          (fun v =>
            match dupGet (bulkCheckDuplicates (sentencesToCheck sentences)
                corpus dbOk) (jsTrim v.sentence.text) with
            | some existingDocumentId =>
              some { text := v.sentence.text
                     existing_document_id := existingDocumentId
                     row_number := v.rowNumber }
            | none => none)
      errors := validationErrors sentences }

/-- A concrete candidate with the given text and fixed valid auxiliary
fields, used to instantiate theorems. -/
def mkDto (t : String) : CreateSentenceDto :=
  { text := t
    language := "hausa"
    script := "latin"
    country := "Nigeria"
    region_dialect := none
    source_type := "media"
    source_ref := none
    collection_date := none
    domain := "education"
    topic := none
    theme := "stereotypes"
    sensitive_characteristic := none
    safety_flag := "safe"
    pii_removed := true
    notes := none }

theorem bulkCheckDuplicates_dbFail (sentences : List CreateSentenceDto)
    (corpus : List SentenceRec) :
    bulkCheckDuplicates sentences corpus false = [] := by
  unfold bulkCheckDuplicates
  split
  · rfl
  · rfl

theorem bulkCheckDuplicates_mem {sentences : List CreateSentenceDto}
    {corpus : List SentenceRec} {dbOk : Bool} {k v : String}
    (h : (k, v) ∈ bulkCheckDuplicates sentences corpus dbOk) :
    ∃ d ∈ corpus, d.text = k ∧ d.id = v := by
  unfold bulkCheckDuplicates at h
  split at h
  · exact absurd h (List.not_mem_nil _)
  · split at h
    · exact absurd h (List.not_mem_nil _)
    · simp only [List.mem_map] at h
      obtain ⟨d, hd, hdk⟩ := h
      refine ⟨d, List.mem_of_mem_filter hd, ?_, ?_⟩
      · exact congrArg Prod.fst hdk
      · exact congrArg Prod.snd hdk

theorem dupGet_mem {m : DupMap} {k v : String} (h : dupGet m k = some v) :
    (k, v) ∈ m := by
  unfold dupGet at h
  cases hf : m.reverse.find? (fun p => p.1 == k) with
  | none => rw [hf] at h; exact Option.noConfusion h
  | some p =>
    rw [hf] at h
    have hp := List.find?_some hf
    have hpm : p ∈ m.reverse := List.mem_of_find?_eq_some hf
    have hk : p.1 = k := by simpa using hp
    have hv : p.2 = v := by
      simp only [Option.map_some'] at h
      injection h
    have hpkv : p = (k, v) := by
      cases p
      simp_all
    rw [← hpkv]
    exact List.mem_reverse.mp hpm

theorem dupGet_none_of_no_match {sentences : List CreateSentenceDto}
    {corpus : List SentenceRec} {dbOk : Bool} {t : String}
    (hno : ∀ d ∈ corpus, d.text ≠ t) :
    dupGet (bulkCheckDuplicates sentences corpus dbOk) t = none := by
  cases h : dupGet (bulkCheckDuplicates sentences corpus dbOk) t with
  | none => rfl
  | some v =>
    obtain ⟨d, hd, hdt, _⟩ := bulkCheckDuplicates_mem (dupGet_mem h)
    exact absurd hdt (hno d hd)

theorem process_branches_length (l : List ValidatedSentence) (m : DupMap)
    (docId : String) :
    (l.filterMap (fun v =>
        match dupGet m (jsTrim v.sentence.text) with
        | some _ => none
        | none =>
          some ({ toCreateSentenceDto := v.sentence
                  document_id := docId } : ValidSentence))).length +
    (l.filterMap (fun v =>
        match dupGet m (jsTrim v.sentence.text) with
        | some existingDocumentId =>
          some ({ text := v.sentence.text
                  existing_document_id := existingDocumentId
                  row_number := v.rowNumber } : DuplicateEntry)
        | none => none)).length = l.length := by
  induction l with
  | nil => rfl
  | cons v rest ih =>
    rw [List.filterMap_cons, List.filterMap_cons]
    cases h : dupGet m (jsTrim v.sentence.text) with
    | none =>
      simp only [h, List.length_cons]
      omega
    | some eid =>
      simp only [h, List.length_cons]
      omega

theorem length_filter_isValid_add (l : List ValidatedSentence) :
    (l.filter (fun v => v.isValid)).length +
      (l.filter (fun v => !v.isValid)).length = l.length := by
  induction l with
  | nil => rfl
  | cons v rest ih =>
    cases hv : v.isValid with
    | false => simp [List.filter_cons, hv]; omega
    | true => simp [List.filter_cons, hv]; omega

theorem validateSentences_length (sentences : List CreateSentenceDto) :
    (validateSentences sentences).length = sentences.length := by
  unfold validateSentences
  rw [List.length_map, List.enum_length]

theorem enumFrom_validate_filter_map (sentences : List CreateSentenceDto) :
    ∀ k : Nat,
      ((((sentences.enumFrom k).map (fun p =>
          ({ sentence := p.2, rowNumber := p.1 + 1,
             isValid := p.2.text != "" } : ValidatedSentence))).filter
        (fun v => v.isValid)).map (fun v => v.sentence)) =
      sentences.filter (fun s => s.text != "") := by
  induction sentences with
  | nil => intro k; rfl
  | cons s rest ih =>
    intro k
    cases hs : (s.text != "") with
    | false => simp [List.enumFrom_cons, List.filter_cons, hs, ih (k + 1)]
    | true => simp [List.enumFrom_cons, List.filter_cons, hs, ih (k + 1)]

theorem step3_map_sentence (sentences : List CreateSentenceDto) :
    ((validateSentences sentences).filter (fun v => v.isValid)).map
      (fun v => v.sentence) = sentences.filter (fun s => s.text != "") := by
  unfold validateSentences
  exact enumFrom_validate_filter_map sentences 0

theorem processSentences_partition (sentences : List CreateSentenceDto)
    (documentId : String) (corpus : List SentenceRec) (dbOk : Bool) :
    (processSentencesWithDuplicateCheck sentences documentId corpus
        dbOk).validSentences.length +
      (processSentencesWithDuplicateCheck sentences documentId corpus
        dbOk).duplicates.length +
      (processSentencesWithDuplicateCheck sentences documentId corpus
        dbOk).errors.length = sentences.length := by
  have hlenv := validateSentences_length sentences
  have hpart := length_filter_isValid_add (validateSentences sentences)
  have herr : (validationErrors sentences).length =
      ((validateSentences sentences).filter (fun v => !v.isValid)).length := by
    unfold validationErrors
    rw [List.length_map]
  have hchk : (sentencesToCheck sentences).length =
      ((validateSentences sentences).filter (fun v => v.isValid)).length := by
    unfold sentencesToCheck
    rw [List.length_map]
  unfold processSentencesWithDuplicateCheck
  split
  · rename_i hzero
    simp only [List.length_nil]
    omega
  · have hbr := process_branches_length
      ((validateSentences sentences).filter (fun v => v.isValid))
      (bulkCheckDuplicates (sentencesToCheck sentences) corpus dbOk)
      documentId
    simp only
    omega

theorem filterMap_valid_all_none (l : List ValidatedSentence) (m : DupMap)
    (docId : String) (h : ∀ v ∈ l, dupGet m (jsTrim v.sentence.text) = none) :
    l.filterMap (fun v =>
        match dupGet m (jsTrim v.sentence.text) with
        | some _ => none
        | none =>
          some ({ toCreateSentenceDto := v.sentence
                  document_id := docId } : ValidSentence)) =
      l.map (fun v =>
        ({ toCreateSentenceDto := v.sentence
           document_id := docId } : ValidSentence)) := by
  induction l with
  | nil => rfl
  | cons v rest ih =>
    simp only [List.filterMap_cons, List.map_cons,
      h v (List.mem_cons_self v rest)]
    rw [ih (fun w hw => h w (List.mem_cons_of_mem v hw))]

theorem filterMap_dup_all_none (l : List ValidatedSentence) (m : DupMap)
    (h : ∀ v ∈ l, dupGet m (jsTrim v.sentence.text) = none) :
    l.filterMap (fun v =>
        match dupGet m (jsTrim v.sentence.text) with
        | some existingDocumentId =>
          some ({ text := v.sentence.text
                  existing_document_id := existingDocumentId
                  row_number := v.rowNumber } : DuplicateEntry)
        | none => none) = [] := by
  induction l with
  | nil => rfl
  | cons v rest ih =>
    simp only [List.filterMap_cons, h v (List.mem_cons_self v rest)]
    exact ih (fun w hw => h w (List.mem_cons_of_mem v hw))

theorem sentencesToCheck_eq_filter (sentences : List CreateSentenceDto) :
    sentencesToCheck sentences = sentences.filter (fun s => s.text != "") := by
  unfold sentencesToCheck
  exact step3_map_sentence sentences

/-- **C6.** If the single bulk existence query throws (modelled as
`dbOk = false`), `bulkCheckDuplicates` returns an empty map, so
`processSentencesWithDuplicateCheck` reports no duplicates and classifies
every validated candidate as non-duplicate — all of them reach
`validSentences`, stamped with the upload's document id — and ingestion
proceeds with only the row-validation errors. -/
theorem duplicate_check_fail_open (sentences : List CreateSentenceDto)
    (documentId : String) (corpus : List SentenceRec) :
    bulkCheckDuplicates sentences corpus false = [] ∧
    (processSentencesWithDuplicateCheck sentences documentId corpus
        false).duplicates = [] ∧
    (processSentencesWithDuplicateCheck sentences documentId corpus
        false).validSentences =
      (sentences.filter (fun s => s.text != "")).map
        (fun s => { toCreateSentenceDto := s, document_id := documentId }) ∧
    (processSentencesWithDuplicateCheck sentences documentId corpus
        false).errors = validationErrors sentences := by
  refine ⟨bulkCheckDuplicates_dbFail sentences corpus, ?_⟩
  have hmapnil := bulkCheckDuplicates_dbFail (sentencesToCheck sentences) corpus
  have hnone :
      ∀ v ∈ (validateSentences sentences).filter (fun v => v.isValid),
        dupGet (bulkCheckDuplicates (sentencesToCheck sentences) corpus false)
          (jsTrim v.sentence.text) = none := by
    intro v _
    rw [hmapnil]
    rfl
  unfold processSentencesWithDuplicateCheck
  split
  · rename_i hzero
    have hfil : sentences.filter (fun s => s.text != "") = [] := by
      rw [← sentencesToCheck_eq_filter]
      exact List.length_eq_zero.mp hzero
    refine ⟨rfl, ?_, rfl⟩
    rw [hfil]
    rfl
  · refine ⟨?_, ?_, rfl⟩
    · exact filterMap_dup_all_none _ _ hnone
    · rw [filterMap_valid_all_none _ _ documentId hnone,
        ← sentencesToCheck_eq_filter, sentencesToCheck, List.map_map]
      rfl

theorem key_branches_lemma (l : List ValidatedSentence) (m : DupMap)
    (docId t : String) (hm : dupGet m t = none) :
    ((l.filterMap (fun v =>
        match dupGet m (jsTrim v.sentence.text) with
        | some existingDocumentId =>
          some ({ text := v.sentence.text
                  existing_document_id := existingDocumentId
                  row_number := v.rowNumber } : DuplicateEntry)
        | none => none)).filter (fun e => jsTrim e.text == t)) = [] ∧
    ((l.filterMap (fun v =>
        match dupGet m (jsTrim v.sentence.text) with
        | some _ => none
        | none =>
          some ({ toCreateSentenceDto := v.sentence
                  document_id := docId } : ValidSentence))).countP
      (fun v => jsTrim v.text == t)) =
      l.countP (fun v => jsTrim v.sentence.text == t) := by
  induction l with
  | nil => exact ⟨rfl, rfl⟩
  | cons v rest ih =>
    by_cases hk : jsTrim v.sentence.text = t
    · have hg : dupGet m (jsTrim v.sentence.text) = none := by rw [hk]; exact hm
      constructor
      · simp only [List.filterMap_cons, hg]
        exact ih.1
      · simp only [List.filterMap_cons, hg, List.countP_cons]
        simp [hk, ih.2]
    · cases hg : dupGet m (jsTrim v.sentence.text) with
      | none =>
        constructor
        · simp only [List.filterMap_cons, hg]
          exact ih.1
        · simp only [List.filterMap_cons, hg, List.countP_cons]
          simp [hk, ih.2]
      | some eid =>
        constructor
        · simp only [List.filterMap_cons, hg, List.filter_cons]
          simp [hk, ih.1]
        · simp only [List.filterMap_cons, hg, List.countP_cons]
          simp [hk, ih.2]

/-- **C10.** Duplicate detection compares candidates only against the
pre-existing corpus, never against each other: when a duplicate key `t`
matches no corpus record, no candidate with that key is reported as a
duplicate, and every valid candidate with that key — including repeated
identical rows within one batch — is placed in `validSentences` for
insertion. -/
theorem within_batch_duplicates_not_detected
    (sentences : List CreateSentenceDto) (documentId : String)
    (corpus : List SentenceRec) (dbOk : Bool) (t : String)
    (hno : ∀ d ∈ corpus, d.text ≠ t) :
    ((processSentencesWithDuplicateCheck sentences documentId corpus
        dbOk).duplicates.filter (fun e => jsTrim e.text == t)) = [] ∧
    ((processSentencesWithDuplicateCheck sentences documentId corpus
        dbOk).validSentences.countP (fun v => jsTrim v.text == t)) =
      sentences.countP (fun s => (jsTrim s.text == t) && (s.text != "")) := by
  have hm :
      dupGet (bulkCheckDuplicates (sentencesToCheck sentences) corpus dbOk) t
        = none :=
    dupGet_none_of_no_match hno
  have hcount :
      ((validateSentences sentences).filter (fun v => v.isValid)).countP
        (fun v => jsTrim v.sentence.text == t) =
      sentences.countP (fun s => (jsTrim s.text == t) && (s.text != "")) := by
    have hmap := step3_map_sentence sentences
    calc
      ((validateSentences sentences).filter (fun v => v.isValid)).countP
          (fun v => jsTrim v.sentence.text == t)
        = (((validateSentences sentences).filter (fun v => v.isValid)).map
            (fun v => v.sentence)).countP (fun s => jsTrim s.text == t) := by
          rw [List.countP_map]; rfl
      _ = (sentences.filter (fun s => s.text != "")).countP
            (fun s => jsTrim s.text == t) := by rw [hmap]
      _ = sentences.countP (fun s => (jsTrim s.text == t) && (s.text != "")) := by
          rw [List.countP_filter]
  unfold processSentencesWithDuplicateCheck
  split
  · rename_i hzero
    have hfil : sentences.filter (fun s => s.text != "") = [] := by
      rw [← sentencesToCheck_eq_filter]
      exact List.length_eq_zero.mp hzero
    refine ⟨rfl, ?_⟩
    simp only [List.countP_nil]
    symm
    rw [List.countP_eq_zero]
    intro a ha
    have hna := List.filter_eq_nil_iff.mp hfil a ha
    simp at hna
    simp [hna]
  · obtain ⟨h1, h2⟩ := key_branches_lemma
      ((validateSentences sentences).filter (fun v => v.isValid))
      (bulkCheckDuplicates (sentencesToCheck sentences) corpus dbOk)
      documentId t hm
    exact ⟨h1, h2.trans hcount⟩

/-- Witness for C10: one upload carrying the same row twice, an empty corpus —
both copies are submitted for insertion and neither is flagged. -/
theorem within_batch_duplicates_not_detected_witness :
    ((processSentencesWithDuplicateCheck [mkDto "hello", mkDto "hello"] "b1"
        [] true).duplicates.filter (fun e => jsTrim e.text == "hello")) = [] ∧
    ((processSentencesWithDuplicateCheck [mkDto "hello", mkDto "hello"] "b1"
        [] true).validSentences.countP (fun v => jsTrim v.text == "hello")) =
      [mkDto "hello", mkDto "hello"].countP
        (fun s => (jsTrim s.text == "hello") && (s.text != "")) :=
  within_batch_duplicates_not_detected [mkDto "hello", mkDto "hello"] "b1"
    [] true "hello" (by intro d hd; exact absurd hd (List.not_mem_nil d))

/-- A pre-existing corpus record persisted under upload batch `batchA`:
record id `rec1`, text `hello`. -/
def preExistingRec : SentenceRec :=
  { id := "rec1", document_id := some "batchA", text := "hello" }

/-- The duplicate entry produced at the counterexample input. -/
def helloDupEntry : DuplicateEntry :=
  { text := "hello", existing_document_id := "rec1", row_number := 1 }

/-- **C5 counterexample.** Re-uploading a row whose text matches
`preExistingRec` (persisted under batch `batchA`) produces a duplicate entry
whose `existing_document_id` is the matched record's own id `rec1`, which
differs from the batch id `batchA` of the matching record — so
`existing_document_id` is not the upload-batch identifier of the matched
record. -/
theorem duplicate_entry_not_batch_id :
    (processSentencesWithDuplicateCheck [mkDto "hello"] "batchB"
        [preExistingRec] true).duplicates = [helloDupEntry] ∧
    preExistingRec.document_id = some "batchA" ∧
    ("rec1" : String) ≠ "batchA" := by
  refine ⟨by decide, rfl, by decide⟩

/-- **C5 (amended).** Every duplicate entry's `existing_document_id` is the
record id (`_id`) of some pre-existing corpus record whose stored text equals
the candidate's trimmed text — the matched record's identity, not its
upload-batch `document_id`. -/
theorem duplicate_entries_carry_matched_record_id
    (sentences : List CreateSentenceDto) (documentId : String)
    (corpus : List SentenceRec) (dbOk : Bool) :
    ∀ e ∈ (processSentencesWithDuplicateCheck sentences documentId corpus
        dbOk).duplicates,
      ∃ d ∈ corpus, d.text = jsTrim e.text ∧ e.existing_document_id = d.id := by
  intro e he
  unfold processSentencesWithDuplicateCheck at he
  split at he
  · exact absurd he (List.not_mem_nil e)
  · simp only [List.mem_filterMap] at he
    obtain ⟨v, _, hve⟩ := he
    cases hg : dupGet (bulkCheckDuplicates (sentencesToCheck sentences)
        corpus dbOk) (jsTrim v.sentence.text) with
    | none => rw [hg] at hve; exact Option.noConfusion hve
    | some eid =>
      rw [hg] at hve
      injection hve with hve
      obtain ⟨d, hd, hdt, hdi⟩ := bulkCheckDuplicates_mem (dupGet_mem hg)
      subst hve
      exact ⟨d, hd, hdt, hdi.symm⟩

/-- Witness for C5 (amended) at the counterexample input: the matched record
is `preExistingRec` itself. -/
theorem duplicate_entries_carry_matched_record_id_witness :
    ∃ d ∈ [preExistingRec],
      d.text = jsTrim helloDupEntry.text ∧
        helloDupEntry.existing_document_id = d.id :=
  duplicate_entries_carry_matched_record_id [mkDto "hello"] "batchB"
    [preExistingRec] true helloDupEntry (by decide)

/-! ## Bulk persister (`sentences.service.ts`, `bulkCreate`) -/

/-- One Mongo per-record write error with its optional message fields
(`err.index`, `err.errmsg`, `err.message`). -/
structure WriteError where
  index : Nat
  errmsg : Option String
  message : Option String
deriving DecidableEq, Repr

/-- The outcome of the `insertMany(..., { ordered: false })` call, supplied
by the environment: resolution (every document inserted) or rejection with
an error object optionally carrying `insertedDocs`, `writeErrors` and
`message` (absent fields are `none`, matching `undefined`). -/
inductive InsertManyOutcome
  | resolved
  | rejected (insertedDocs : Option (List ValidSentence))
      (writeErrors : Option (List WriteError)) (message : Option String)
deriving DecidableEq, Repr

/-- One entry of the `errors` array returned by `bulkCreate`. -/
structure BulkError where
  index : Nat
  error : String
deriving DecidableEq, Repr

/-- The return shape of `SentencesService.bulkCreate`. -/
structure BulkCreateResult where
  success : Bool
  insertedCount : Nat
  sentences : List ValidSentence
  errors : List BulkError
  document_id : Option String
deriving DecidableEq, Repr

/-- The `sentencesToInsert` array of `bulkCreate`: each candidate with the
dto's language as fallback and restamped with the dto's `document_id`
(`collector_id` is outside the tracked fields). -/
def sentencesToInsert (sentences : List ValidSentence)
    (document_id : String) (dtoLanguage : Option String) :
    List ValidSentence :=
  sentences.map (fun sentence =>
    { sentence with
      language :=
        if sentence.language != "" then sentence.language
        else dtoLanguage.getD ""
      document_id := document_id })

/-- `SentencesService.bulkCreate`: on resolution all documents are inserted;
on rejection, the branch `error.writeErrors || error.insertedDocs !==
undefined` (an empty `writeErrors` array is still truthy) separates partial
from total failure. -/
def bulkCreate (sentences : List ValidSentence) (document_id : String)
    (dtoLanguage : Option String) (outcome : InsertManyOutcome) :
    BulkCreateResult :=
  match outcome with
  | InsertManyOutcome.resolved =>
    { success := true
      insertedCount := (sentencesToInsert sentences document_id dtoLanguage).length
      sentences := sentencesToInsert sentences document_id dtoLanguage
      errors := []
      document_id := some document_id }
  | InsertManyOutcome.rejected insertedDocs writeErrors message =>
    if writeErrors.isSome ∨ insertedDocs.isSome then
      { success := false
        insertedCount := (insertedDocs.getD []).length
        sentences := insertedDocs.getD []
        errors := (writeErrors.getD []).map (fun err =>
          { index := err.index
            error := err.errmsg.getD
              (err.message.getD "Database insertion error") })
        document_id := none }
    else
      { success := false
        insertedCount := 0
        sentences := []
        errors := [{ index := 0
                     error := message.getD "Unknown database error" }]
        document_id := none }

/-- **C8.** A total insert failure (an error with neither per-record write
errors nor partially inserted documents) returns `insertedCount = 0`, an
empty inserted list, and exactly one synthetic error entry whose message
describes the failure cause; a partial failure instead returns the
successfully inserted documents and one `index`/`message` error entry per
failed record. -/
theorem bulkCreate_failure_shapes (sentences : List ValidSentence)
    (document_id : String) (dtoLanguage : Option String)
    (msg : Option String) (docs : List ValidSentence)
    (wErrs : List WriteError) :
    (bulkCreate sentences document_id dtoLanguage
        (InsertManyOutcome.rejected none none msg) =
      { success := false
        insertedCount := 0
        sentences := []
        errors := [{ index := 0
                     error := msg.getD "Unknown database error" }]
        document_id := none }) ∧
    (bulkCreate sentences document_id dtoLanguage
        (InsertManyOutcome.rejected (some docs) (some wErrs) msg) =
      { success := false
        insertedCount := docs.length
        sentences := docs
        errors := wErrs.map (fun err =>
          { index := err.index
            error := err.errmsg.getD
              (err.message.getD "Database insertion error") })
        document_id := none }) := by
  constructor
  · simp [bulkCreate]
  · simp [bulkCreate]

/-- The MongoDB driver's partial-failure contract for an unordered
`insertMany` over `n` documents: the rejection reports the inserted
documents and one write error per failed record, partitioning the batch. -/
def InsertContract (outcome : InsertManyOutcome) (n : Nat) : Prop :=
  match outcome with
  | InsertManyOutcome.resolved => True
  | InsertManyOutcome.rejected insertedDocs writeErrors _ =>
    (insertedDocs.isSome ∨ writeErrors.isSome) ∧
    (insertedDocs.getD []).length + (writeErrors.getD []).length = n

theorem bulkCreate_count (sentences : List ValidSentence)
    (document_id : String) (dtoLanguage : Option String)
    (outcome : InsertManyOutcome)
    (h : InsertContract outcome sentences.length) :
    (bulkCreate sentences document_id dtoLanguage outcome).insertedCount +
      (bulkCreate sentences document_id dtoLanguage outcome).errors.length =
      sentences.length := by
  cases outcome with
  | resolved =>
    simp [bulkCreate, sentencesToInsert]
  | rejected insertedDocs writeErrors message =>
    unfold InsertContract at h
    obtain ⟨hsome, hsum⟩ := h
    simp only [bulkCreate]
    rw [if_pos (Or.symm hsome)]
    simp only [List.length_map]
    omega

/-! ## Tabular parser (`lib/csv-parser.service.ts`, data-collection
variant) -/

/-- A raw tabular row after header normalisation: each cell the string read
from the file, absent columns `none`. -/
structure CsvRow where
  text : Option String := none
  language : Option String := none
  script : Option String := none
  country : Option String := none
  region_dialect : Option String := none
  source_type : Option String := none
  source_ref : Option String := none
  collection_date : Option String := none
  domain : Option String := none
  topic : Option String := none
  theme : Option String := none
  sensitive_characteristic : Option String := none
  safety_flag : Option String := none
  pii_removed : Option String := none
  notes : Option String := none
deriving DecidableEq, Repr

/-- JS truthiness of an optional string cell: `undefined` and `""` are
falsy. -/
def truthy : Option String → Bool
  | none => false
  | some s => s != ""

/-- The `Script` vocabulary of `data-collection.types.ts`. -/
def scriptValues : List String :=
  ["latin", "geez", "arabic", "ajami", "tifinagh", "nko", "vai", "other"]

/-- The `SourceType` vocabulary. -/
def sourceTypeValues : List String :=
  ["community", "web_public", "interview", "media", "other"]

/-- The `Domain` vocabulary. -/
def domainValues : List String :=
  ["culture_and_religion", "education", "health", "livelihoods_and_work",
   "governance_civic", "media_and_online", "household_and_care"]

/-- The `Theme` vocabulary. -/
def themeValues : List String :=
  ["stereotypes", "hate_or_insult", "misinformation", "public_interest",
   "specialized_advice"]

/-- The `SensitiveCharacteristic` vocabulary. -/
def sensitiveCharacteristicValues : List String :=
  ["age", "disability", "ethnicity", "gender", "health_status",
   "income_level", "nationality", "religion", "tribe", "other"]

/-- The `SafetyFlag` vocabulary. -/
def safetyFlagValues : List String :=
  ["safe", "sensitive", "reject"]

/-- `CsvParserService.parseEnum`: a falsy value is `undefined`; otherwise
the lower-cased trimmed value must belong to the closed vocabulary. -/
def parseEnum (value : Option String) (enumValues : List String) :
    Option String :=
  match value with
  | none => none
  | some v =>
    if v = "" then none
    else if enumValues.contains (jsTrim (jsToLower v)) then
      some (jsTrim (jsToLower v))
    else none

/-- `CsvParserService.parseBoolean`: falsy is `false`; otherwise membership
of the lower-cased trimmed value in `['true', '1', 'yes']`. -/
def parseBoolean (value : Option String) : Bool :=
  match value with
  | none => false
  | some v =>
    if v = "" then false
    else ["true", "1", "yes"].contains (jsTrim (jsToLower v))

/-- `row.collection_date ? new Date(...) : undefined`, keeping the raw
string in place of the `Date`. -/
def parseDate (value : Option String) : Option String :=
  match value with
  | none => none
  | some d => if d = "" then none else some d

/-- `row.notes?.trim() || null`: trimmed notes, with an empty trim result
collapsed to `null`. -/
def parseNotes (value : Option String) : Option String :=
  match value.map jsTrim with
  | none => none
  | some n => if n = "" then none else some n

/-- `CsvParserService.mapRowToDto`: drops a row missing any required field
or whose `source_type`/`domain`/`theme` fail enum validation; otherwise
produces the canonical candidate record with defaults applied. -/
def mapRowToDto (row : CsvRow) : Option CreateSentenceDto :=
  if !(truthy row.text) || !(truthy row.language) || !(truthy row.country) ||
      !(truthy row.source_type) || !(truthy row.domain) ||
      !(truthy row.theme) then
    none
  else
    match parseEnum row.source_type sourceTypeValues,
        parseEnum row.domain domainValues,
        parseEnum row.theme themeValues with
    | some sourceType, some domain, some theme =>
      some
        { text := jsTrim (row.text.getD "")
          language := jsTrim (row.language.getD "")
          script := (parseEnum row.script scriptValues).getD "latin"
          country := jsTrim (row.country.getD "")
          region_dialect := row.region_dialect.map jsTrim
          source_type := sourceType
          source_ref := row.source_ref.map jsTrim
          collection_date := parseDate row.collection_date
          domain := domain
          topic := row.topic.map jsTrim
          theme := theme
          sensitive_characteristic :=
            parseEnum row.sensitive_characteristic
              sensitiveCharacteristicValues
          safety_flag := (parseEnum row.safety_flag safetyFlagValues).getD "safe"
          pii_removed := parseBoolean row.pii_removed
          notes := parseNotes row.notes }
    | _, _, _ => none

/-- `CsvParserService.parseCsv` over already-tokenised rows: push the dto of
every row that maps successfully. -/
def parseCsv (rows : List CsvRow) : List CreateSentenceDto :=
  rows.filterMap mapRowToDto

/-- `CsvParserService.parseXlsx` (first sheet already tokenised): map every
row through `mapRowToDto` and keep the non-null results. -/
def parseXlsx (rows : List CsvRow) : List CreateSentenceDto :=
  rows.filterMap mapRowToDto

/-- `filename.toLowerCase().split('.').pop()`. -/
def fileExtension (filename : String) : String :=
  String.mk (((jsToLower filename).data.splitOn '.').getLastD [])

/-- `CsvParserService.parseFile`: dispatch on the lowercased final
extension; an unknown extension throws naming it. -/
def parseFile (filename : String) (rows : List CsvRow) :
    Except String (List CreateSentenceDto) :=
  if fileExtension filename = "csv" then
    Except.ok (parseCsv rows)
  else if fileExtension filename = "xlsx" ∨ fileExtension filename = "xls" then
    Except.ok (parseXlsx rows)
  else
    Except.error ("Unsupported file format: " ++ fileExtension filename)

/-- **C9.** For every filename whose lowercased final extension is not
csv/xlsx/xls, `parseFile` fails with an error message naming the unsupported
extension and returns no record sequence; for a supported extension whose
rows contain no valid record it returns the empty sequence without error. -/
theorem parseFile_extension_behaviour (filename : String)
    (rows : List CsvRow) :
    (fileExtension filename ∉ (["csv", "xlsx", "xls"] : List String) →
      parseFile filename rows =
        Except.error ("Unsupported file format: " ++ fileExtension filename)) ∧
    (fileExtension filename ∈ (["csv", "xlsx", "xls"] : List String) →
      (∀ row ∈ rows, mapRowToDto row = none) →
      parseFile filename rows = Except.ok []) := by
  constructor
  · intro h
    simp only [List.mem_cons, List.mem_singleton, not_or] at h
    obtain ⟨h1, h2, h3, _⟩ := h
    unfold parseFile
    rw [if_neg h1, if_neg (by tauto)]
  · intro hmem hnone
    have hnil : rows.filterMap mapRowToDto = [] :=
      List.filterMap_eq_nil_iff.mpr hnone
    unfold parseFile
    simp only [List.mem_cons, List.mem_singleton, List.not_mem_nil,
      or_false] at hmem
    rcases hmem with h | h | h
    · rw [if_pos h]
      unfold parseCsv
      rw [hnil]
    · rw [if_neg (by simp [h]), if_pos (Or.inl h)]
      unfold parseXlsx
      rw [hnil]
    · rw [if_neg (by simp [h]), if_pos (Or.inr h)]
      unfold parseXlsx
      rw [hnil]

/-- Witness for C9: a `.TXT` upload is rejected naming `txt`; a `.csv`
upload whose single row is empty parses to the empty sequence. -/
theorem parseFile_extension_behaviour_witness :
    parseFile "data.TXT" [{}] =
      Except.error ("Unsupported file format: " ++ fileExtension "data.TXT") ∧
    parseFile "data.csv" [{}] = Except.ok [] := by
  constructor
  · exact (parseFile_extension_behaviour "data.TXT" [{}]).1 (by decide)
  · exact (parseFile_extension_behaviour "data.csv" [{}]).2 (by decide)
      (by decide)

/-! ## Upload pipeline and document-tracking ledger
(`SentencesController.uploadCsv`, `lib/document-tracking.service.ts`).

The mimetype and missing-file rejections of the controller happen before
`startTime`/`documentId` and touch nothing modelled here; the simulation
starts at the `try` block.  Each `await` on a collaborator may reject; the
environment records each call's outcome. -/

/-- The `status` enum of the document-tracking record. -/
inductive DocStatus
  | processing
  | completed
  | failed
deriving DecidableEq, Repr

/-- The count/status fields of the document-tracking record observed by the
claims. -/
structure LedgerRecord where
  total_rows : Nat
  successful_inserts : Nat
  failed_inserts : Nat
  duplicate_count : Nat
  status : DocStatus
deriving DecidableEq, Repr

/-- The observable steps of one upload attempt, in the order they run. -/
inductive UploadEvent
  | parseEv
  | s3UploadEv
  | createRecordEv
  | detectEv
  | persistEv
  | updateRecordEv (status : DocStatus)
deriving DecidableEq, Repr

/-- The environment of one `uploadCsv` call: the uploaded file's tokenised
rows and declared name, and the outcome of every collaborator call. -/
structure UploadEnv where
  filename : String
  rows : List CsvRow
  s3Ok : Bool
  createOk : Bool
  corpus : List SentenceRec
  dupQueryOk : Bool
  insertOutcome : InsertManyOutcome
  updateOk : Bool
deriving Repr

/-- The `processing` counts returned to the caller on success. -/
structure UploadResponse where
  totalRows : Nat
  successfulInserts : Nat
  duplicatesFound : Nat
  errorsFound : Nat
  success : Bool
deriving DecidableEq, Repr

/-- Step 5 of `uploadCsv`: the bulk insert runs only when there are valid
non-duplicate sentences; otherwise `bulkResult` keeps its zero default. -/
def pipelineBulkResult (parsedSentences : List CreateSentenceDto)
    (documentId : String) (env : UploadEnv) : BulkCreateResult :=
  if (processSentencesWithDuplicateCheck parsedSentences documentId
      env.corpus env.dupQueryOk).validSentences.length > 0 then
    bulkCreate
      (processSentencesWithDuplicateCheck parsedSentences documentId
        env.corpus env.dupQueryOk).validSentences
      documentId none env.insertOutcome
  else
    { success := true
      insertedCount := 0
      sentences := []
      errors := []
      document_id := none }

/-- The pipeline section of the event trace once the tracking record exists:
detection always runs, persistence only for a non-empty valid set. -/
def pipelineTrace (parsedSentences : List CreateSentenceDto)
    (documentId : String) (env : UploadEnv) : List UploadEvent :=
  [UploadEvent.parseEv, UploadEvent.s3UploadEv, UploadEvent.createRecordEv,
    UploadEvent.detectEv] ++
  (if (processSentencesWithDuplicateCheck parsedSentences documentId
      env.corpus env.dupQueryOk).validSentences.length > 0 then
    [UploadEvent.persistEv]
  else [])

/-- The terminal `completed` update of step 7 (overwriting the `processing`
record created in step 3). -/
def completedLedger (parsedSentences : List CreateSentenceDto)
    (documentId : String) (env : UploadEnv) : LedgerRecord :=
  { total_rows := parsedSentences.length
    successful_inserts :=
      (pipelineBulkResult parsedSentences documentId env).insertedCount
    failed_inserts :=
      (processSentencesWithDuplicateCheck parsedSentences documentId
        env.corpus env.dupQueryOk).errors.length +
      (pipelineBulkResult parsedSentences documentId env).errors.length
    duplicate_count :=
      (processSentencesWithDuplicateCheck parsedSentences documentId
        env.corpus env.dupQueryOk).duplicates.length
    status := DocStatus.completed }

/-- The catch-block `failed` update: zero counts, status `failed`. -/
def failedLedger (parsedSentences : List CreateSentenceDto) : LedgerRecord :=
  { total_rows := parsedSentences.length
    successful_inserts := 0
    failed_inserts := 0
    duplicate_count := 0
    status := DocStatus.failed }

/-- `SentencesController.uploadCsv` (steps 1-7 plus the catch block),
returning the event trace, the final state of the document-tracking record
(`none` when `createDocumentRecord` never persisted it — the catch-block
update matches no record then), and the HTTP outcome. -/
def uploadCsv (env : UploadEnv) (documentId : String) :
    List UploadEvent × Option LedgerRecord × Except String UploadResponse :=
  match parseFile env.filename env.rows with
  | Except.error msg =>
    ([UploadEvent.parseEv], none,
      Except.error ("Failed to process file: " ++ msg))
  | Except.ok parsedSentences =>
    if parsedSentences.length = 0 then
      ([UploadEvent.parseEv], none,
        Except.error
          "Failed to process file: No valid sentences found in the uploaded file")
    else if !env.s3Ok then
      ([UploadEvent.parseEv, UploadEvent.s3UploadEv], none,
        Except.error "Failed to process file: S3 upload failed")
    else if !env.createOk then
      ([UploadEvent.parseEv, UploadEvent.s3UploadEv], none,
        Except.error "Failed to process file: document record creation failed")
    else if env.updateOk then
      (pipelineTrace parsedSentences documentId env ++
          [UploadEvent.updateRecordEv DocStatus.completed],
        some (completedLedger parsedSentences documentId env),
        Except.ok
          { totalRows := parsedSentences.length
            successfulInserts :=
              (pipelineBulkResult parsedSentences documentId env).insertedCount
            duplicatesFound :=
              (processSentencesWithDuplicateCheck parsedSentences documentId
                env.corpus env.dupQueryOk).duplicates.length
            errorsFound :=
              (processSentencesWithDuplicateCheck parsedSentences documentId
                env.corpus env.dupQueryOk).errors.length +
              (pipelineBulkResult parsedSentences documentId env).errors.length
            success := (pipelineBulkResult parsedSentences documentId env).success })
    else
      (pipelineTrace parsedSentences documentId env ++
          [UploadEvent.updateRecordEv DocStatus.failed],
        some (failedLedger parsedSentences),
        Except.error "Failed to process file: document record update failed")

/-- A fully valid tokenised row (all required columns present, enum values
in vocabulary). -/
def sampleRow : CsvRow :=
  { text := some "Sample text"
    language := some "hausa"
    country := some "Nigeria"
    source_type := some "media"
    domain := some "education"
    theme := some "stereotypes" }

/-- An environment in which every collaborator succeeds and the bulk insert
resolves. -/
def uploadEnvOk : UploadEnv :=
  { filename := "a.csv"
    rows := [sampleRow]
    s3Ok := true
    createOk := true
    corpus := []
    dupQueryOk := true
    insertOutcome := InsertManyOutcome.resolved
    updateOk := true }

/-- An environment whose bulk insert fails totally: the rejection carries
neither write errors nor inserted documents. -/
def uploadEnvTotalFail : UploadEnv :=
  { uploadEnvOk with
    rows := [sampleRow, sampleRow]
    insertOutcome :=
      InsertManyOutcome.rejected none none (some "connection lost") }

/-- The terminal ledger record of the successful one-row upload. -/
def okLedger : LedgerRecord :=
  { total_rows := 1
    successful_inserts := 1
    failed_inserts := 0
    duplicate_count := 0
    status := DocStatus.completed }

/-- **C3.** Whenever an upload attempt created the document-tracking record,
the attempt ends with that record in status `completed` or `failed`, never
`processing`: wherever in the pipeline an exception is raised, the catch
block still writes a terminal `failed` update (zero counts acceptable). -/
theorem ledger_terminal_state (env : UploadEnv) (documentId : String)
    (r : LedgerRecord)
    (h : (uploadCsv env documentId).2.1 = some r) :
    r.status = DocStatus.completed ∨ r.status = DocStatus.failed := by
  unfold uploadCsv at h
  split at h
  · simp at h
  · rename_i parsedSentences hparse
    split at h
    · simp at h
    · split at h
      · simp at h
      · split at h
        · simp at h
        · split at h
          · have hr : completedLedger parsedSentences documentId env = r := by
              simpa using h
            rw [← hr]
            left
            rfl
          · have hr : failedLedger parsedSentences = r := by
              simpa using h
            rw [← hr]
            right
            rfl

/-- Witness for C3: the successful upload ends with the ledger in a terminal
state. -/
theorem ledger_terminal_state_witness :
    okLedger.status = DocStatus.completed ∨
      okLedger.status = DocStatus.failed :=
  ledger_terminal_state uploadEnvOk "doc1" okLedger (by decide)

theorem pipelineBulkResult_count (parsedSentences : List CreateSentenceDto)
    (documentId : String) (env : UploadEnv)
    (h : InsertContract env.insertOutcome
      (processSentencesWithDuplicateCheck parsedSentences documentId
        env.corpus env.dupQueryOk).validSentences.length) :
    (pipelineBulkResult parsedSentences documentId env).insertedCount +
      (pipelineBulkResult parsedSentences documentId env).errors.length =
      (processSentencesWithDuplicateCheck parsedSentences documentId
        env.corpus env.dupQueryOk).validSentences.length := by
  unfold pipelineBulkResult
  split
  · exact bulkCreate_count _ _ _ _ h
  · rename_i hn
    simp only [List.length_nil]
    omega

/-- **C2 (amended).** The duplicate-check partition always conserves rows
(|validSentences| + |duplicates| + |errors| = number of parsed records), and
an attempt that reaches the terminal `completed` update writes counts with
successful_inserts + duplicate_count + failed_inserts = total_rows provided
the bulk insert resolved or failed partially under the driver's partition
contract; a total bulk-insert failure writes a single synthetic error, so
there the sum falls short (see the counterexample). -/
theorem row_count_conservation (sentences : List CreateSentenceDto)
    (documentId : String) (corpus : List SentenceRec) (dbOk : Bool)
    (env : UploadEnv) (docId : String) (r : LedgerRecord) :
    ((processSentencesWithDuplicateCheck sentences documentId corpus
        dbOk).validSentences.length +
      (processSentencesWithDuplicateCheck sentences documentId corpus
        dbOk).duplicates.length +
      (processSentencesWithDuplicateCheck sentences documentId corpus
        dbOk).errors.length = sentences.length) ∧
    ((uploadCsv env docId).2.1 = some r →
      r.status = DocStatus.completed →
      (∀ parsed, parseFile env.filename env.rows = Except.ok parsed →
        InsertContract env.insertOutcome
          (processSentencesWithDuplicateCheck parsed docId env.corpus
            env.dupQueryOk).validSentences.length) →
      r.successful_inserts + r.duplicate_count + r.failed_inserts =
        r.total_rows) := by
  constructor
  · exact processSentences_partition sentences documentId corpus dbOk
  · intro hr hst hcontract
    unfold uploadCsv at hr
    split at hr
    · simp at hr
    · rename_i parsedSentences hparse
      split at hr
      · simp at hr
      · split at hr
        · simp at hr
        · split at hr
          · simp at hr
          · split at hr
            · have hrc : completedLedger parsedSentences docId env = r := by
                simpa using hr
              have hcon := hcontract parsedSentences hparse
              have hbulk := pipelineBulkResult_count parsedSentences docId
                env hcon
              have hpartition := processSentences_partition parsedSentences
                docId env.corpus env.dupQueryOk
              rw [← hrc]
              simp only [completedLedger]
              omega
            · have hrf : failedLedger parsedSentences = r := by
                simpa using hr
              rw [← hrf] at hst
              simp [failedLedger] at hst

/-- Witness for C2 (amended) at the successful one-row upload. -/
theorem row_count_conservation_witness :
    okLedger.successful_inserts + okLedger.duplicate_count +
      okLedger.failed_inserts = okLedger.total_rows :=
  (row_count_conservation [mkDto "hi"] "d" [] true uploadEnvOk "doc1"
      okLedger).2 (by decide) (by decide) (fun _ _ => trivial)

/-- The terminal ledger written when the bulk insert fails totally on a
two-row upload. -/
def totalFailLedger : LedgerRecord :=
  { total_rows := 2
    successful_inserts := 0
    failed_inserts := 1
    duplicate_count := 0
    status := DocStatus.completed }

/-- **C2 counterexample.** Two parsed rows, total bulk-insert failure: the
terminal update is written with status `completed` and counts
successful 0 + duplicates 0 + failed 1 = 1 ≠ 2 = total_rows. -/
theorem row_count_counterexample :
    (uploadCsv uploadEnvTotalFail "doc1").2.1 = some totalFailLedger ∧
    totalFailLedger.successful_inserts + totalFailLedger.duplicate_count +
      totalFailLedger.failed_inserts ≠ totalFailLedger.total_rows := by
  constructor
  · decide
  · decide

/-- First index of an event in a trace. -/
def eventIdx (tr : List UploadEvent) (e : UploadEvent) : Option Nat :=
  tr.findIdx? (fun x => x == e)

/-- `a` strictly precedes `b` whenever both occur in the trace. -/
def precedesB (tr : List UploadEvent) (a b : UploadEvent) : Bool :=
  match eventIdx tr a, eventIdx tr b with
  | some i, some j => decide (i < j)
  | _, _ => true

/-- The ordering facts that hold of every upload trace: parsing and the S3
upload precede the `processing` write, which precedes detection and
persistence, all of which precede the terminal ledger write. -/
def orderedTrace (tr : List UploadEvent) : Bool :=
  precedesB tr UploadEvent.parseEv UploadEvent.createRecordEv &&
  precedesB tr UploadEvent.s3UploadEv UploadEvent.createRecordEv &&
  precedesB tr UploadEvent.createRecordEv UploadEvent.detectEv &&
  precedesB tr UploadEvent.createRecordEv UploadEvent.persistEv &&
  precedesB tr UploadEvent.parseEv
    (UploadEvent.updateRecordEv DocStatus.completed) &&
  precedesB tr UploadEvent.parseEv
    (UploadEvent.updateRecordEv DocStatus.failed) &&
  precedesB tr UploadEvent.detectEv
    (UploadEvent.updateRecordEv DocStatus.completed) &&
  precedesB tr UploadEvent.detectEv
    (UploadEvent.updateRecordEv DocStatus.failed) &&
  precedesB tr UploadEvent.persistEv
    (UploadEvent.updateRecordEv DocStatus.completed) &&
  precedesB tr UploadEvent.persistEv
    (UploadEvent.updateRecordEv DocStatus.failed)

/-- **C7 counterexample.** In a successful upload the `processing` write
(step 3 of `uploadCsv`) comes strictly after parsing (step 1): the trace is
parse, S3 upload, create, detect, persist, terminal update, so the claimed
'processing write strictly precedes parsing' is false on the code. -/
theorem upload_ordering_counterexample :
    (uploadCsv uploadEnvOk "doc1").1 =
      [UploadEvent.parseEv, UploadEvent.s3UploadEv,
        UploadEvent.createRecordEv, UploadEvent.detectEv,
        UploadEvent.persistEv,
        UploadEvent.updateRecordEv DocStatus.completed] ∧
    precedesB (uploadCsv uploadEnvOk "doc1").1 UploadEvent.createRecordEv
      UploadEvent.parseEv = false := by
  constructor
  · decide
  · decide

/-- **C7 (amended).** Within one upload attempt, parsing and the S3 upload
strictly precede the document-tracking `processing` write (not the other
way round, as the spec claims), the `processing` write strictly precedes
duplicate detection and bulk insertion, and all pipeline steps strictly
precede the terminal document-tracking write — on the failure path too. -/
theorem upload_event_ordering (env : UploadEnv) (documentId : String) :
    orderedTrace (uploadCsv env documentId).1 = true := by
  unfold uploadCsv
  split
  · show orderedTrace [UploadEvent.parseEv] = true
    decide
  · split
    · show orderedTrace [UploadEvent.parseEv] = true
      decide
    · split
      · show orderedTrace
          [UploadEvent.parseEv, UploadEvent.s3UploadEv] = true
        decide
      · split
        · show orderedTrace
            [UploadEvent.parseEv, UploadEvent.s3UploadEv] = true
          decide
        · split
          · unfold pipelineTrace
            split
            · show orderedTrace
                ([UploadEvent.parseEv, UploadEvent.s3UploadEv,
                  UploadEvent.createRecordEv, UploadEvent.detectEv] ++
                  [UploadEvent.persistEv] ++
                  [UploadEvent.updateRecordEv DocStatus.completed]) = true
              decide
            · show orderedTrace
                ([UploadEvent.parseEv, UploadEvent.s3UploadEv,
                  UploadEvent.createRecordEv, UploadEvent.detectEv] ++ [] ++
                  [UploadEvent.updateRecordEv DocStatus.completed]) = true
              decide
          · unfold pipelineTrace
            split
            · show orderedTrace
                ([UploadEvent.parseEv, UploadEvent.s3UploadEv,
                  UploadEvent.createRecordEv, UploadEvent.detectEv] ++
                  [UploadEvent.persistEv] ++
                  [UploadEvent.updateRecordEv DocStatus.failed]) = true
              decide
            · show orderedTrace
                ([UploadEvent.parseEv, UploadEvent.s3UploadEv,
                  UploadEvent.createRecordEv, UploadEvent.detectEv] ++ [] ++
                  [UploadEvent.updateRecordEv DocStatus.failed]) = true
              decide

end AiBridge
